import Mathlib

/-!
Verification development for the real-time audio conversation coordinator
of the end-to-end-voice repository.

The definitions below are shallow embeddings of the JavaScript source:

* text normalization and duplicate-question detection
  (scripts/injected-automation.js, function isSameQuestion);
* the PCM/base64 frame codec (src/audio capture module,
  pcmToBase64 and base64ToPcm);
* the audio-capture worklet callback and its TTS/silence gates
  (scripts/injected-automation.js, captureWorklet.port.onmessage);
* the LLM client connection machine (src/llm/client.js, handleClose,
  handleSetupComplete, handleError);
* the playback queue machine (scripts/injected-automation.js,
  playAudioBase64 and playNextFromQueue);
* the turn-taking coordinator (scripts/injected-automation.js,
  handleSTTResponse, processBufferedQuestion, generateResponse,
  startCooldown, startNoAudioCheck, askToRepeatQuestion, askUmiToRepeat);
* the Node-side conversation manager (src/llm/conversation.js,
  handleTranscription, generateResponse).

JavaScript numbers used for audio samples are modelled as rationals,
timestamps as naturals, PCM sample values as integers.
-/

/-- ASCII apostrophe, kept as a named constant. -/
def apoC : Char := Char.ofNat 39

/-- ASCII space. -/
def spC : Char := Char.ofNat 32

/-- Space as a one-character string. -/
def apoS : String := String.singleton apoC

/-- Whitespace class of JavaScript regex \s, restricted to ASCII
(space, tab, line feed, vertical tab, form feed, carriage return). -/
def isWsChar (c : Char) : Bool :=
  c = spC || c = Char.ofNat 9 || c = Char.ofNat 10 ||
  c = Char.ofNat 11 || c = Char.ofNat 12 || c = Char.ofNat 13

/-- Word class of JavaScript regex \w: ASCII letters, digits, underscore. -/
def isWordChar (c : Char) : Bool :=
  (c.isAlpha || c.isDigit) || c = Char.ofNat 95

/-- Match a literal character sequence at the head, returning the rest. -/
def litM : List Char → List Char → Option (List Char)
  | [], cs => some cs
  | _ :: _, [] => none
  | l :: ls, c :: cs => if c = l then litM ls cs else none

/-- Match regex \s+ greedily: require one whitespace character, then
consume all following whitespace.  In the two patterns below nothing that
follows a \s+ can match a whitespace character, so greedy matching without
backtracking agrees with JavaScript regex semantics. -/
def wsPlus : List Char → Option (List Char)
  | [] => none
  | c :: cs => if isWsChar c then some (cs.dropWhile isWsChar) else none

/-- Optional group: try to match, keep the input unchanged on failure.
In the two patterns below the first character of every group is distinct
from anything its continuation can start with, so this greedy choice
agrees with JavaScript backtracking. -/
def optPart (f : List Char → Option (List Char)) (cs : List Char) : List Char :=
  (f cs).getD cs

/-- Trailing [\s.]* of both patterns: greedily drop whitespace and dots. -/
def dropWsDot (cs : List Char) : List Char :=
  cs.dropWhile (fun c => isWsChar c || c = Char.ofNat 46)

/-- Alternation (one\s+more\s+time|first\s+question|next\s+question)
from the first filler pattern of isSameQuestion. -/
def pat1Alt (cs : List Char) : Option (List Char) :=
  ((litM ("one".toList) cs).bind fun cs => (wsPlus cs).bind fun cs =>
    (litM ("more".toList) cs).bind fun cs => (wsPlus cs).bind fun cs =>
    litM ("time".toList) cs) <|>
  ((litM ("first".toList) cs).bind fun cs => (wsPlus cs).bind fun cs =>
    litM ("question".toList) cs) <|>
  ((litM ("next".toList) cs).bind fun cs => (wsPlus cs).bind fun cs =>
    litM ("question".toList) cs)

/-- First filler pattern of isSameQuestion, the regex
^here'?s?\s+(the\s+)?(question\s+)?(one\s+more\s+time|first\s+question|next\s+question)[\s.]*
as a matcher from input to the remainder after the matched span. -/
def pat1Match (cs : List Char) : Option (List Char) :=
  (litM ("here".toList) cs).bind fun cs =>
  let cs := optPart (litM [apoC]) cs
  let cs := optPart (litM [Char.ofNat 115]) cs
  (wsPlus cs).bind fun cs =>
  let cs := optPart (fun cs => (litM ("the".toList) cs).bind wsPlus) cs
  let cs := optPart (fun cs => (litM ("question".toList) cs).bind wsPlus) cs
  (pat1Alt cs).map dropWsDot

/-- Second filler pattern of isSameQuestion, the regex
^(let'?s?\s+)?(go\s+back\s+to\s+)?(the\s+)?(question|first\s+question)[\s.]*
as a matcher from input to the remainder after the matched span. -/
def pat2Match (cs : List Char) : Option (List Char) :=
  let cs := optPart (fun cs =>
    (litM ("let".toList) cs).bind fun cs =>
      let cs := optPart (litM [apoC]) cs
      let cs := optPart (litM [Char.ofNat 115]) cs
      wsPlus cs) cs
  let cs := optPart (fun cs =>
    (litM ("go".toList) cs).bind fun cs => (wsPlus cs).bind fun cs =>
    (litM ("back".toList) cs).bind fun cs => (wsPlus cs).bind fun cs =>
    (litM ("to".toList) cs).bind wsPlus) cs
  let cs := optPart (fun cs => (litM ("the".toList) cs).bind wsPlus) cs
  ((litM ("question".toList) cs) <|>
   ((litM ("first".toList) cs).bind fun cs => (wsPlus cs).bind fun cs =>
     litM ("question".toList) cs)).map dropWsDot

/-- String.replace with an anchored pattern and empty replacement: drop the
matched span if the pattern matches at the start, else leave unchanged. -/
def stripPat (m : List Char → Option (List Char)) (cs : List Char) : List Char :=
  (m cs).getD cs

/-- Collapse every maximal run of whitespace into a single space
(the replace(/\s+/g, one space) step); the flag records whether the
previous character was whitespace. -/
def collapseWsAux : Bool → List Char → List Char
  | _, [] => []
  | prevWs, c :: cs =>
    if isWsChar c then
      if prevWs then collapseWsAux true cs else spC :: collapseWsAux true cs
    else c :: collapseWsAux false cs

/-- replace(/\s+/g, one space). -/
def collapseWs (cs : List Char) : List Char := collapseWsAux false cs

/-- JavaScript String.prototype.trim on the ASCII whitespace class. -/
def trimWs (cs : List Char) : List Char :=
  ((cs.dropWhile isWsChar).reverse.dropWhile isWsChar).reverse

/-- The normalize closure inside isSameQuestion: lowercase, strip the two
filler patterns, replace [^\w\s] by spaces, collapse whitespace, trim. -/
def normalizeQ (cs : List Char) : List Char :=
  let n := cs.map Char.toLower
  let n := stripPat pat1Match n
  let n := stripPat pat2Match n
  let n := n.map (fun c => if isWordChar c || isWsChar c then c else spC)
  trimWs (collapseWs n)

/-- JavaScript String.prototype.split on a single space. -/
def splitSpAux (cur : List Char) : List Char → List (List Char)
  | [] => [cur.reverse]
  | c :: cs =>
    if c = spC then cur.reverse :: splitSpAux [] cs
    else splitSpAux (c :: cur) cs

/-- JavaScript split on a single space. -/
def splitSp (cs : List Char) : List (List Char) := splitSpAux [] cs

/-- The word list of a normalized question: split on spaces and keep words
longer than 2 characters. -/
def qWords (cs : List Char) : List (List Char) :=
  (splitSp cs).filter (fun w => 2 < w.length)

/-- isSameQuestion from scripts/injected-automation.js, on character
lists.  The 0.6 similarity threshold is the rational 3/5; for the word
counts involved the IEEE comparison of the source and the exact rational
comparison agree. -/
def isSameQuestionL (q1 q2 : List Char) : Bool :=
  if q1.isEmpty || q2.isEmpty then false
  else if q1.length < 10 || q2.length < 10 then false
  else
    let n1 := normalizeQ q1
    let n2 := normalizeQ q2
    if n1 = n2 then true
    else
      let w1 := qWords n1
      let w2 := qWords n2
      if w1.isEmpty || w2.isEmpty then false
      else
        let common := w1.filter (fun w => w2.contains w)
        decide (mkRat 3 5 ≤ mkRat common.length (max w1.length w2.length))

/-- isSameQuestion on strings. -/
def isSameQuestionS (q1 q2 : String) : Bool :=
  isSameQuestionL q1.toList q2.toList

/-- JavaScript String.prototype.trim lifted to strings. -/
def jsTrim (s : String) : String := String.mk (trimWs s.toList)

/-!  PCM frame codec (src/audio capture module: pcmToBase64, base64ToPcm).

pcmToBase64 builds an Int16Array from the frame, views it as little-endian
bytes, turns the bytes into a latin1 string and base64-encodes it;
base64ToPcm decodes the base64 string back to bytes and views them as a
little-endian Int16Array.  The latin1 string step is byte-for-byte
identity, so the codec is modelled directly on byte lists. -/

/-- The base64 alphabet. -/
def b64Table : List Char :=
  "ABCDEFGHIJKLMNOPQRSTUVWXYZabcdefghijklmnopqrstuvwxyz0123456789+/".toList

/-- The base64 padding character. -/
def b64Pad : Char := Char.ofNat 61

/-- Base64 digit for a sextet. -/
def sextetToChar (n : Nat) : Char := b64Table.getD n (Char.ofNat 65)

/-- Sextet of a base64 digit. -/
def charToSextet (c : Char) : Nat := b64Table.indexOf c

/-- Base64-encode a byte list, three bytes to four digits,
with = padding for a trailing group of one or two bytes. -/
def b64encode : List Nat → List Char
  | [] => []
  | [a] =>
    [sextetToChar (a / 4), sextetToChar (a % 4 * 16), b64Pad, b64Pad]
  | [a, b] =>
    [sextetToChar (a / 4), sextetToChar (a % 4 * 16 + b / 16),
     sextetToChar (b % 16 * 4), b64Pad]
  | a :: b :: c :: rest =>
    sextetToChar (a / 4) :: sextetToChar (a % 4 * 16 + b / 16) ::
    sextetToChar (b % 16 * 4 + c / 64) :: sextetToChar (c % 64) ::
    b64encode rest

/-- Base64-decode to a byte list, four digits to three bytes, stopping at
a padded final group. -/
def b64decode : List Char → List Nat
  | c1 :: c2 :: c3 :: c4 :: rest =>
    let s1 := charToSextet c1
    let s2 := charToSextet c2
    if c3 = b64Pad then [s1 * 4 + s2 / 16]
    else
      let s3 := charToSextet c3
      if c4 = b64Pad then [s1 * 4 + s2 / 16, s2 % 16 * 16 + s3 / 4]
      else
        (s1 * 4 + s2 / 16) :: (s2 % 16 * 16 + s3 / 4) ::
        (s3 % 4 * 64 + charToSextet c4) :: b64decode rest
  | _ => []

/-- Little-endian byte pair of a 16-bit signed sample, as stored by an
Int16Array buffer (two's complement). -/
def int16Bytes (n : Int) : List Nat :=
  let u := (n % 65536).toNat
  [u % 256, u / 256]

/-- Signed 16-bit value of a little-endian byte pair. -/
def bytePairToInt16 (lo hi : Nat) : Int :=
  let u := lo + 256 * hi
  if u < 32768 then (u : Int) else (u : Int) - 65536

/-- Read a byte list as a little-endian Int16Array; a trailing odd byte is
dropped, as the Int16Array view truncates to whole elements. -/
def bytesToInt16s : List Nat → List Int
  | lo :: hi :: rest => bytePairToInt16 lo hi :: bytesToInt16s rest
  | _ => []

/-- pcmToBase64: frame of 16-bit samples to base64 transport token. -/
def pcmToBase64 (frame : List Int) : List Char :=
  b64encode (frame.flatMap int16Bytes)

/-- base64ToPcm: base64 transport token back to a frame of samples. -/
def base64ToPcm (token : List Char) : List Int :=
  bytesToInt16s (b64decode token)

/-!  Audio capture worklet callback
(scripts/injected-automation.js, captureWorklet.port.onmessage).

Raw float samples are rationals; the converted PCM buffer holds the exact
values the source pushes (the source pushes unrounded products). -/

/-- Math.max(-1, Math.min(1, x)). -/
def jsClamp (x : ℚ) : ℚ := if x < -1 then -1 else if 1 < x then 1 else x

/-- Math.abs. -/
def jsAbs (x : ℚ) : ℚ := if x < 0 then -x else x

/-- Float32 to Int16 conversion of the capture callback:
s < 0 selects the 0x8000 scale, otherwise the 0x7FFF scale. -/
def js16 (x : ℚ) : ℚ :=
  let s := jsClamp x
  if s < 0 then s * 32768 else s * 32767

/-- The silence threshold of the capture callback (0.001 of full scale). -/
def silenceThreshold : ℚ := mkRat 1 1000

/-- hasAudio of the capture callback: some sample exceeds the threshold. -/
def hasAudio (samples : List ℚ) : Bool :=
  samples.any (fun x => silenceThreshold < jsAbs x)

/-- Capture-side state: the two coordinator flags read by the callback and
the rolling PCM buffer. -/
structure CapSt where
  isPlayingTTS : Bool
  isWaitingForResponse : Bool
  pcmBuffer : List ℚ
deriving DecidableEq

/-- The capture gate is closed during Speaking and Cooldown, when
isPlayingTTS or isWaitingForResponse is set. -/
def gateClosed (s : CapSt) : Bool := s.isPlayingTTS || s.isWaitingForResponse

/-- One invocation of captureWorklet.port.onmessage with a raw sample
block: drop everything while the gate is closed; drop silent blocks;
otherwise convert and accumulate, and once samplesPerChunk samples are
buffered slice off one chunk for sendAudioToLLM.  Returns the new state
and the frames forwarded to the transcription client. -/
def captureOnMessage (samplesPerChunk : Nat) (s : CapSt) (samples : List ℚ) :
    CapSt × List (List ℚ) :=
  if gateClosed s then (s, [])
  else if !hasAudio samples then (s, [])
  else
    let buf := s.pcmBuffer ++ samples.map js16
    if samplesPerChunk ≤ buf.length then
      ({ s with pcmBuffer := buf.drop samplesPerChunk }, [buf.take samplesPerChunk])
    else
      ({ s with pcmBuffer := buf }, [])

/-- Environment events seen by the capture callback: a raw sample block
from the worklet, or the coordinator toggling one of the gate flags. -/
inductive CapEvent where
  | chunk (samples : List ℚ)
  | setPlaying (b : Bool)
  | setWaiting (b : Bool)
deriving DecidableEq

/-- One capture-side step. -/
def capStep (n : Nat) (s : CapSt) : CapEvent → CapSt × List (List ℚ)
  | .chunk samples => captureOnMessage n s samples
  | .setPlaying b => ({ s with isPlayingTTS := b }, [])
  | .setWaiting b => ({ s with isWaitingForResponse := b }, [])

/-- Instrumented run over a sequence of capture callbacks and flag
transitions: for every step, record whether the gate was closed on entry
and the frames the step forwarded. -/
def capRunI (n : Nat) (s : CapSt) : List CapEvent → List (Bool × List (List ℚ))
  | [] => []
  | e :: es =>
    let (s', outs) := capStep n s e
    (gateClosed s, outs) :: capRunI n s' es

/-!  LLM client connection machine (src/llm/client.js). -/

/-- DEFAULTS.MAX_RECONNECT_ATTEMPTS. -/
def maxReconnectAttempts : Nat := 5

/-- DEFAULTS.RECONNECT_DELAY_MS. -/
def reconnectDelayMs : Nat := 3000

/-- Connection state of createLLMClient: the ready and connecting flags
and the reconnect-attempt counter. -/
structure ClSt where
  isReady : Bool
  isConnecting : Bool
  reconnectAttempts : Nat
deriving DecidableEq

/-- Observable actions of the client: events emitted to the registered
handlers, and the scheduling of a reconnect timer. -/
inductive ClOut where
  | errorEvt
  | readyEvt
  | scheduleReconnect (delayMs : Nat)
deriving DecidableEq

/-- handleClose: clear ready and connecting; while fewer than
maxReconnectAttempts attempts have been made, count one attempt and
schedule connect after reconnectDelayMs.  No event is emitted to the
handlers in either case. -/
def handleClose (maxAttempts delay : Nat) (s : ClSt) : ClSt × List ClOut :=
  let s := { s with isReady := false, isConnecting := false }
  if s.reconnectAttempts < maxAttempts then
    ({ s with reconnectAttempts := s.reconnectAttempts + 1 },
     [.scheduleReconnect delay])
  else (s, [])

/-- handleSetupComplete: set ready, emit the ready event, and when a
connect call is in flight clear the connecting flag and reset the
reconnect-attempt counter. -/
def handleSetupComplete (s : ClSt) : ClSt × List ClOut :=
  let s' := { s with isReady := true }
  if s.isConnecting then
    ({ s' with isConnecting := false, reconnectAttempts := 0 }, [.readyEvt])
  else (s', [.readyEvt])

/-- handleError: emit the error event; when a connect call is in flight
clear the connecting flag (the connect promise is rejected). -/
def handleErrorEvt (s : ClSt) : ClSt × List ClOut :=
  if s.isConnecting then ({ s with isConnecting := false }, [.errorEvt])
  else (s, [.errorEvt])

/-- Iterate handleClose over k consecutive unexpected closures with no
successful setup in between. -/
def iterClose (maxAttempts delay : Nat) (s : ClSt) : Nat → ClSt × List ClOut
  | 0 => (s, [])
  | k + 1 =>
    let r := handleClose maxAttempts delay s
    let r' := iterClose maxAttempts delay r.1 k
    (r'.1, r.2 ++ r'.2)

/-- Number of reconnect attempts scheduled in an output list. -/
def countReconnects (outs : List ClOut) : Nat :=
  (outs.filter (fun o => match o with
    | .scheduleReconnect _ => true
    | _ => false)).length

/-!  Playback queue machine
(scripts/injected-automation.js, playAudioBase64 and playNextFromQueue). -/

/-- Playback state: the FIFO of pending chunks (base64 data and sample
rate), the isPlayingTTS flag and the backoff deadline. -/
structure PB where
  playbackQueue : List (String × Nat)
  isPlayingTTS : Bool
  playbackBackoffUntil : Nat
deriving DecidableEq

/-- Result of one paplay attempt, chosen by the environment. -/
inductive PlayResult where
  | ok
  | fail (msg : String)
deriving DecidableEq

/-- needle occurs at the head of the haystack. -/
def subAt : List Char → List Char → Bool
  | [], _ => true
  | _ :: _, [] => false
  | a :: as, b :: bs => a = b && subAt as bs

/-- JavaScript String.prototype.includes on character lists. -/
def hasSub (needle : List Char) : List Char → Bool
  | [] => needle.isEmpty
  | c :: rest => subAt needle (c :: rest) || hasSub needle rest

/-- The error-message test of the outer catch of playNextFromQueue. -/
def pulseErrorMsg (m : String) : Bool :=
  hasSub ("PulseAudio".toList) m.toList ||
  hasSub ("TTS playback failed".toList) m.toList

/-- Observable actions of the playback machine. -/
inductive PbOut where
  | played (item : String × Nat)
  | cooldownStarted
  | loggedError (msg : String)
deriving DecidableEq

/-- playAudioBase64 at time t: reject the chunk during backoff, otherwise
append it to the queue and, if the queue was empty and nothing is playing,
set isPlayingTTS (the playback loop is then started). -/
def playAudioBase64 (t : Nat) (s : PB) (item : String × Nat) : PB :=
  if t < s.playbackBackoffUntil then s
  else
    let q := s.playbackQueue ++ [item]
    if q.length = 1 && !s.isPlayingTTS then
      { s with playbackQueue := q, isPlayingTTS := true }
    else { s with playbackQueue := q }

/-- One iteration of playNextFromQueue at time t.  An empty queue ends
playback and starts the cooldown.  Otherwise the head chunk is played:
on success it is removed and the loop continues; on a playback error the
inner catch clears the whole queue and the playing flag, and for a
PulseAudio-related message the outer catch also sets a 5-second backoff.
No cooldown is started on the failure path. -/
def playNextStep (t : Nat) (s : PB) (r : PlayResult) : PB × List PbOut :=
  match s.playbackQueue with
  | [] => ({ s with isPlayingTTS := false }, [.cooldownStarted])
  | item :: rest =>
    match r with
    | .ok => ({ s with playbackQueue := rest }, [.played item])
    | .fail msg =>
      let s' := { s with playbackQueue := [], isPlayingTTS := false }
      if pulseErrorMsg msg then
        ({ s' with playbackBackoffUntil := t + 5000 }, [.loggedError msg])
      else (s', [.loggedError msg])

/-!  Turn-taking coordinator (scripts/injected-automation.js).

Pending setTimeout timers are modelled by their absolute due times; a
timer-fire event carries the current time and acts only when it matches
the pending due time.  The effect of the playback pipeline on the shared
isPlayingTTS flag is delivered through the audioChunk and playbackDrained
events: an accepted TTS chunk leaves the flag set, the drain of the queue
clears it and calls startCooldown.  (A chunk rejected during backoff
leaves the state unchanged, which is the same as the event not being
delivered, so the event model covers every source behavior.) -/

/-- RESPONSE_DELAY_MS. -/
def responseDelayMs : Nat := 8000

/-- COOLDOWN_MS. -/
def cooldownMs : Nat := 15000

/-- The no-audio watchdog delay and threshold (15 seconds). -/
def noAudioCheckMs : Nat := 15000

/-- The prompt wrapper generateResponse sends over the TTS socket. -/
def ttsPromptText : String :=
  "You are being interviewed for a job. Respond naturally and concisely (1-2 sentences max) to this question: "

/-- The prompt wrapper of the STT-socket fallback of generateResponse. -/
def sttPromptText : String :=
  "You are being interviewed. Respond naturally and concisely (1-2 sentences max) to this question: "

/-- The fixed utterance of askToRepeatQuestion. -/
def repeatQuestionMsg : String := "Can you repeat the question please?"

/-- The fixed utterance of askUmiToRepeat. -/
def umiRepeatMsg : String :=
  "Hey Umi, can you come again please? I didn" ++ apoS ++ "t catch that."

/-- Observable actions of the coordinator: clientContent messages sent to
a speech websocket (each one requests a spoken reply). -/
inductive COut where
  | speakRequest (text : String)
deriving DecidableEq

/-- Coordinator state: the four booleans, the transcript buffer, the
stored last question, the last-transcription timestamp and the four
pending timers (response delay, cooldown, no-audio watchdog, and the
5-second reset scheduled by askUmiToRepeat), plus the readiness of the
two websockets. -/
structure Coord where
  isPlayingTTS : Bool
  isWaitingForResponse : Bool
  isInCooldown : Bool
  hasAskedToRepeat : Bool
  transcriptBuffer : String
  lastQuestion : String
  lastTranscriptionTime : Nat
  responseDue : Option Nat
  cooldownDue : Option Nat
  noAudioDue : Option Nat
  umiResetDue : Option Nat
  ttsReady : Bool
  sttReady : Bool
deriving DecidableEq

/-- generateResponse: bail out while a response is already awaited;
otherwise set isWaitingForResponse and send the wrapped question over the
TTS socket, or over the STT socket as fallback; with neither socket ready
clear both flags and send nothing. -/
def generateResponse (s : Coord) (question : String) : Coord × List COut :=
  if s.isWaitingForResponse then (s, [])
  else
    let s := { s with isWaitingForResponse := true }
    if s.ttsReady then (s, [.speakRequest (ttsPromptText ++ question)])
    else if s.sttReady then (s, [.speakRequest (sttPromptText ++ question)])
    else ({ s with isWaitingForResponse := false, isPlayingTTS := false }, [])

/-- askToRepeatQuestion: with the TTS socket ready and neither speaking
nor awaiting a response, set isWaitingForResponse and speak the fixed
repeat request. -/
def askToRepeatQuestion (s : Coord) : Coord × List COut :=
  if !s.ttsReady then (s, [])
  else if s.isPlayingTTS || s.isWaitingForResponse then (s, [])
  else ({ s with isWaitingForResponse := true }, [.speakRequest repeatQuestionMsg])

/-- askUmiToRepeat at time t: guarded by TTS readiness, the two busy
flags, and hasAskedToRepeat; when it speaks, it sets hasAskedToRepeat and
isWaitingForResponse and schedules the 5-second reset. -/
def askUmiToRepeat (s : Coord) (t : Nat) : Coord × List COut :=
  if !s.ttsReady then (s, [])
  else if s.isPlayingTTS || s.isWaitingForResponse then (s, [])
  else if s.hasAskedToRepeat then (s, [])
  else
    ({ s with hasAskedToRepeat := true,
              isWaitingForResponse := true,
              umiResetDue := some (t + 5000) },
     [.speakRequest umiRepeatMsg])

/-- processBufferedQuestion: trim the transcript buffer; on non-empty
text run the duplicate check against lastQuestion, asking for a repeat on
a duplicate and otherwise storing the question and generating a response,
then clear the buffer. -/
def processBufferedQuestion (s : Coord) : Coord × List COut :=
  let question := jsTrim s.transcriptBuffer
  if question ≠ "" then
    let r :=
      if isSameQuestionS question s.lastQuestion then askToRepeatQuestion s
      else generateResponse { s with lastQuestion := question } question
    ({ r.1 with transcriptBuffer := "" }, r.2)
  else (s, [])

/-- handleSTTResponse on an input transcription at time t: non-empty text
is always appended to the transcript buffer; the last-transcription time
is updated, the no-audio watchdog is cancelled and the repeat flag is
reset; only outside TTS playback and response wait is the silence timer
(re)started. -/
def handleSTT (s : Coord) (t : Nat) (text : String) : Coord :=
  if text = "" then s
  else
    let s := { s with transcriptBuffer := s.transcriptBuffer ++ " " ++ text,
                      lastTranscriptionTime := t,
                      noAudioDue := none,
                      hasAskedToRepeat := false }
    if !s.isPlayingTTS && !s.isWaitingForResponse then
      { s with responseDue := some (t + responseDelayMs) }
    else s

/-- startCooldown at time t: ignored while a cooldown is in progress,
otherwise mark the cooldown and schedule its timer. -/
def startCooldown (s : Coord) (t : Nat) : Coord :=
  if s.isInCooldown then s
  else { s with isInCooldown := true, cooldownDue := some (t + cooldownMs) }

/-- startNoAudioCheck at time t: skipped once the repeat prompt has been
used this turn, otherwise (re)arm the 15-second watchdog. -/
def startNoAudioCheck (s : Coord) (t : Nat) : Coord :=
  if s.hasAskedToRepeat then s
  else { s with noAudioDue := some (t + noAudioCheckMs) }

/-- Body of the cooldown timer: clear the busy flags; with buffered
transcript text schedule its processing after the response delay,
otherwise clear the (whitespace-only) buffer; leave cooldown, reset the
repeat flag, reset the last-transcription time, re-arm the no-audio
watchdog and clear the stored last question. -/
def cooldownBody (s : Coord) (t : Nat) : Coord :=
  let s := { s with isPlayingTTS := false, isWaitingForResponse := false,
                    cooldownDue := none }
  let s :=
    if jsTrim s.transcriptBuffer ≠ "" then
      { s with responseDue := some (t + responseDelayMs) }
    else { s with transcriptBuffer := "" }
  let s := { s with isInCooldown := false, hasAskedToRepeat := false,
                    lastTranscriptionTime := t }
  let s := startNoAudioCheck s t
  { s with lastQuestion := "" }

/-- Body of the no-audio watchdog timer at time t: ask for a repeat only
when 15 seconds have passed since the last transcription and the
coordinator is neither speaking, nor awaiting a response, nor has already
asked; the fired timer is spent in every case. -/
def noAudioBody (s : Coord) (t : Nat) : Coord × List COut :=
  let r :=
    if (noAudioCheckMs ≤ t - s.lastTranscriptionTime) && !s.isPlayingTTS &&
        !s.isWaitingForResponse && !s.hasAskedToRepeat then
      askUmiToRepeat s t
    else (s, [])
  ({ r.1 with noAudioDue := none }, r.2)

/-- Events driving the coordinator: an input transcription, the firing of
one of the four timers, an accepted TTS audio chunk, and the drain of the
playback queue. -/
inductive CEvent where
  | transcript (t : Nat) (text : String)
  | responseFire (t : Nat)
  | cooldownFire (t : Nat)
  | noAudioFire (t : Nat)
  | umiResetFire (t : Nat)
  | audioChunk (t : Nat)
  | playbackDrained (t : Nat)
deriving DecidableEq

/-- One coordinator step.  A timer-fire event acts only when a timer is
pending with exactly that due time, and consumes it. -/
def coordStep (s : Coord) : CEvent → Coord × List COut
  | .transcript t text => (handleSTT s t text, [])
  | .responseFire t =>
    if s.responseDue = some t then
      processBufferedQuestion { s with responseDue := none }
    else (s, [])
  | .cooldownFire t =>
    if s.cooldownDue = some t then (cooldownBody s t, []) else (s, [])
  | .noAudioFire t =>
    if s.noAudioDue = some t then noAudioBody s t else (s, [])
  | .umiResetFire t =>
    if s.umiResetDue = some t then
      ({ s with isWaitingForResponse := false, lastTranscriptionTime := t,
                umiResetDue := none }, [])
    else (s, [])
  | .audioChunk _ => ({ s with isPlayingTTS := true }, [])
  | .playbackDrained t => (startCooldown { s with isPlayingTTS := false } t, [])

/-- Run of the coordinator over an event sequence, collecting outputs. -/
def coordRun (s : Coord) : List CEvent → Coord × List COut
  | [] => (s, [])
  | e :: es =>
    let r := coordStep s e
    let r' := coordRun r.1 es
    (r'.1, r.2 ++ r'.2)

/-!  Node-side conversation manager (src/llm/conversation.js). -/

/-- Conversation-manager state. -/
structure ConvSt where
  transcriptBuffer : String
  isWaitingForResponse : Bool
  isTTSPlaying : Bool
  responseDue : Option Nat
  llmReady : Bool
deriving DecidableEq

/-- Transcription type tag of the conversation manager. -/
inductive TrType where
  | input
  | output
deriving DecidableEq

/-- handleTranscription of the conversation manager at time t: blank text
and output transcriptions are ignored; a transcription arriving while TTS
plays or a response is awaited is skipped without touching the buffer;
otherwise the text is accumulated and the silence timer restarted. -/
def convHandleTranscription (s : ConvSt) (t : Nat) (text : String)
    (ty : TrType) : ConvSt :=
  if jsTrim text = "" then s
  else if ty = .output then s
  else if s.isTTSPlaying || s.isWaitingForResponse then s
  else
    { s with transcriptBuffer := s.transcriptBuffer ++ " " ++ text,
             responseDue := some (t + 5000) }

/-- createResponsePrompt of the conversation manager. -/
def convResponsePrompt (question : String) : String :=
  "Based on the interviewer" ++ apoS ++ "s question: \"" ++ question ++
  "\", please provide a concise and natural interview response."

/-- generateResponse of the conversation manager: bail out while a
response is awaited; otherwise set both busy flags and, when the LLM
client is ready, send the wrapped question. -/
def convGenerateResponse (s : ConvSt) (question : String) :
    ConvSt × List String :=
  if s.isWaitingForResponse then (s, [])
  else
    let s := { s with isWaitingForResponse := true, isTTSPlaying := true }
    if s.llmReady then (s, [convResponsePrompt question]) else (s, [])

/-!  Helper lemmas. -/

/-- Decoding a base64 digit recovers the sextet. -/
theorem charToSextet_sextetToChar (n : Nat) (h : n < 64) :
    charToSextet (sextetToChar n) = n := by
  have hall : ∀ m : Fin 64, charToSextet (sextetToChar m.val) = m.val := by decide
  exact hall ⟨n, h⟩

/-- Base64 digits are never the padding character. -/
theorem sextetToChar_ne_pad (n : Nat) (h : n < 64) : sextetToChar n ≠ b64Pad := by
  have hall : ∀ m : Fin 64, sextetToChar m.val ≠ b64Pad := by decide
  exact hall ⟨n, h⟩

/-- Base64 decoding inverts encoding on byte lists. -/
theorem b64decode_b64encode : ∀ bs : List Nat, (∀ b ∈ bs, b < 256) →
    b64decode (b64encode bs) = bs
  | [], _ => rfl
  | [a], h => by
    have ha : a < 256 := h a (by simp)
    simp only [b64encode, b64decode, if_true]
    rw [charToSextet_sextetToChar (a / 4) (by omega),
        charToSextet_sextetToChar (a % 4 * 16) (by omega)]
    have e1 : a / 4 * 4 + a % 4 * 16 / 16 = a := by omega
    rw [e1]
  | [a, b], h => by
    have ha : a < 256 := h a (by simp)
    have hb : b < 256 := h b (by simp)
    simp only [b64encode, b64decode]
    rw [if_neg (sextetToChar_ne_pad (b % 16 * 4) (by omega))]
    simp only [if_true]
    rw [charToSextet_sextetToChar (a / 4) (by omega),
        charToSextet_sextetToChar (a % 4 * 16 + b / 16) (by omega),
        charToSextet_sextetToChar (b % 16 * 4) (by omega)]
    have e1 : a / 4 * 4 + (a % 4 * 16 + b / 16) / 16 = a := by omega
    have e2 : (a % 4 * 16 + b / 16) % 16 * 16 + b % 16 * 4 / 4 = b := by omega
    rw [e1, e2]
  | a :: b :: c :: rest, h => by
    have ha : a < 256 := h a (by simp)
    have hb : b < 256 := h b (by simp)
    have hc : c < 256 := h c (by simp)
    have ih := b64decode_b64encode rest (fun x hx => h x (by simp [hx]))
    simp only [b64encode, b64decode]
    rw [if_neg (sextetToChar_ne_pad (b % 16 * 4 + c / 64) (by omega)),
        if_neg (sextetToChar_ne_pad (c % 64) (by omega))]
    rw [charToSextet_sextetToChar (a / 4) (by omega),
        charToSextet_sextetToChar (a % 4 * 16 + b / 16) (by omega),
        charToSextet_sextetToChar (b % 16 * 4 + c / 64) (by omega),
        charToSextet_sextetToChar (c % 64) (by omega)]
    have e1 : a / 4 * 4 + (a % 4 * 16 + b / 16) / 16 = a := by omega
    have e2 : (a % 4 * 16 + b / 16) % 16 * 16 + (b % 16 * 4 + c / 64) / 4 = b := by omega
    have e3 : (b % 16 * 4 + c / 64) % 4 * 64 + c % 64 = c := by omega
    rw [e1, e2, e3, ih]

/-- The little-endian pair of a sample consists of bytes. -/
theorem int16Bytes_lt (n : Int) : ∀ b ∈ int16Bytes n, b < 256 := by
  intro b hb
  have h3 : (n % 65536) < 65536 := Int.emod_lt_of_pos n (by norm_num)
  have h0 : (0:Int) ≤ n % 65536 := Int.emod_nonneg n (by norm_num)
  simp only [int16Bytes, List.mem_cons, List.mem_singleton] at hb
  rcases hb with h | h | h
  · omega
  · omega
  · simp at h

/-- Reading back the little-endian pair recovers an in-range sample. -/
theorem bytePairToInt16_int16Bytes (n : Int) (h1 : -32768 ≤ n)
    (h2 : n ≤ 32767) :
    bytePairToInt16 ((n % 65536).toNat % 256) ((n % 65536).toNat / 256) = n := by
  unfold bytePairToInt16
  have h0 : (0:Int) ≤ n % 65536 := Int.emod_nonneg n (by norm_num)
  have h3 : n % 65536 < 65536 := Int.emod_lt_of_pos n (by norm_num)
  have h4 : ((n % 65536).toNat : Int) = n % 65536 := Int.toNat_of_nonneg h0
  dsimp only
  split <;> omega

/-- The Int16Array view of the serialized frame is the frame. -/
theorem bytesToInt16s_flatMap : ∀ frame : List Int,
    (∀ x ∈ frame, -32768 ≤ x ∧ x ≤ 32767) →
    bytesToInt16s (frame.flatMap int16Bytes) = frame
  | [], _ => rfl
  | x :: rest, h => by
    have hx := h x (by simp)
    have ih := bytesToInt16s_flatMap rest (fun y hy => h y (by simp [hy]))
    simp only [List.flatMap_cons]
    show bytesToInt16s (int16Bytes x ++ rest.flatMap int16Bytes) = x :: rest
    simp only [int16Bytes, List.cons_append, List.nil_append]
    show bytePairToInt16 _ _ :: bytesToInt16s (rest.flatMap int16Bytes) = x :: rest
    rw [bytePairToInt16_int16Bytes x hx.1 hx.2, ih]

/-- C6: the PCM frame codec round-trips: for every frame of 16-bit signed
samples, base64ToPcm applied to the token produced by pcmToBase64 yields
the original frame element for element. -/
theorem c6_pcm_codec_roundtrip (frame : List Int)
    (h : ∀ x ∈ frame, -32768 ≤ x ∧ x ≤ 32767) :
    base64ToPcm (pcmToBase64 frame) = frame := by
  unfold base64ToPcm pcmToBase64
  have hbound : ∀ b ∈ frame.flatMap int16Bytes, b < 256 := by
    intro b hb
    rw [List.mem_flatMap] at hb
    obtain ⟨x, _, hbx⟩ := hb
    exact int16Bytes_lt x b hbx
  rw [b64decode_b64encode _ hbound]
  exact bytesToInt16s_flatMap frame h

/-- C6 witness: the round trip evaluated on a concrete frame covering
zero, positive, negative and both extreme samples. -/
theorem c6_pcm_codec_roundtrip_witness :
    (∀ x ∈ [(0:Int), 1, -1, 32767, -32768], -32768 ≤ x ∧ x ≤ 32767) ∧
    base64ToPcm (pcmToBase64 [(0:Int), 1, -1, 32767, -32768]) =
      [(0:Int), 1, -1, 32767, -32768] :=
  ⟨by decide, c6_pcm_codec_roundtrip _ (by decide)⟩

/-- C1: in every sequence of capture callbacks and gate-flag transitions,
a step that starts with the capture gate closed (Speaking/Cooldown, i.e.
isPlayingTTS or isWaitingForResponse set) forwards no frame to the
transcription client. -/
theorem c1_gate_closed_forwards_nothing (n : Nat) (s : CapSt)
    (evs : List CapEvent) (p : Bool × List (List ℚ))
    (hp : p ∈ capRunI n s evs) (hc : p.1 = true) : p.2 = [] := by
  induction evs generalizing s with
  | nil => simp [capRunI] at hp
  | cons e es ih =>
    simp only [capRunI] at hp
    rcases List.mem_cons.mp hp with h | h
    · subst h
      cases e with
      | chunk samples =>
        simp only [capStep, captureOnMessage] at *
        rw [if_pos hc]
      | setPlaying b => rfl
      | setWaiting b => rfl
    · exact ih _ h

/-- C1 witness: a run with the gate closed by isPlayingTTS and one
delivered sample block; the recorded step forwards nothing. -/
theorem c1_gate_closed_forwards_nothing_witness :
    ((true, ([] : List (List ℚ))) ∈
      capRunI 4 ⟨true, false, []⟩ [CapEvent.chunk [mkRat 1 2]]) ∧
    (true, ([] : List (List ℚ))).2 = [] :=
  ⟨by decide,
   c1_gate_closed_forwards_nothing 4 ⟨true, false, []⟩
     [CapEvent.chunk [mkRat 1 2]] _ (by decide) rfl⟩

/-- C7: with the gate open, a raw sample block whose samples all have
absolute amplitude at or below the 0.001 silence threshold is discarded
before accumulation (state unchanged, nothing forwarded); a block with at
least one sample above the threshold is accumulated in full: the
forwarded frames followed by the new buffer equal the old buffer followed
by the converted block. -/
theorem c7_silence_threshold (n : Nat) (s : CapSt) (samples : List ℚ)
    (hg : gateClosed s = false) :
    ((∀ x ∈ samples, jsAbs x ≤ silenceThreshold) →
      captureOnMessage n s samples = (s, [])) ∧
    ((∃ x ∈ samples, silenceThreshold < jsAbs x) →
      ((captureOnMessage n s samples).2.flatten ++
        (captureOnMessage n s samples).1.pcmBuffer
        = s.pcmBuffer ++ samples.map js16)) := by
  constructor
  · intro hsil
    have hna : hasAudio samples = false := by
      simp only [hasAudio, List.any_eq_false]
      intro x hx
      simpa using not_lt.mpr (hsil x hx)
    simp [captureOnMessage, hg, hna]
  · intro hloud
    have hha : hasAudio samples = true := by
      simp only [hasAudio, List.any_eq_true]
      obtain ⟨x, hx, hlt⟩ := hloud
      exact ⟨x, hx, by simpa using hlt⟩
    simp only [captureOnMessage, hg, Bool.false_eq_true, if_false, hha,
      Bool.not_true, if_true]
    split
    · simp [List.take_append_drop]
    · simp

/-- C7 witness: a sub-threshold block is discarded and an above-threshold
block is accumulated, on concrete inputs. -/
theorem c7_silence_threshold_witness :
    gateClosed ⟨false, false, []⟩ = false ∧
    (∀ x ∈ [mkRat 1 2000], jsAbs x ≤ silenceThreshold) ∧
    captureOnMessage 4 ⟨false, false, []⟩ [mkRat 1 2000] = (⟨false, false, []⟩, []) ∧
    (∃ x ∈ [mkRat 1 2], silenceThreshold < jsAbs x) ∧
    ((captureOnMessage 4 ⟨false, false, []⟩ [mkRat 1 2]).2.flatten ++
      (captureOnMessage 4 ⟨false, false, []⟩ [mkRat 1 2]).1.pcmBuffer
      = [] ++ [mkRat 1 2].map js16) :=
  ⟨rfl, by decide,
   (c7_silence_threshold 4 ⟨false, false, []⟩ [mkRat 1 2000] rfl).1 (by decide),
   by decide,
   (c7_silence_threshold 4 ⟨false, false, []⟩ [mkRat 1 2] rfl).2 (by decide)⟩

/-- C5: the duplicate-question detector accepts the repeat-phrasing pair
and rejects the unrelated pair from the specification. -/
theorem c5_isSameQuestion_examples :
    isSameQuestionS "What is your greatest strength?"
      ("Here" ++ apoS ++ "s the question one more time: what is your greatest strength") = true ∧
    isSameQuestionS "What is your name?" "What is your favorite color?" = false := by
  decide

/-- countReconnects distributes over append. -/
theorem countReconnects_append (xs ys : List ClOut) :
    countReconnects (xs ++ ys) = countReconnects xs + countReconnects ys := by
  simp [countReconnects, List.filter_append]

/-- C4 (amended): on unexpected closure the client schedules exactly one
reconnect after the fixed 3-second delay while fewer than 5 attempts have
been made, incrementing the counter; once 5 attempts have been made a
closure schedules no further reconnect and emits no event at all (in
particular no terminal error event); a successful setup completion during
a connect resets the counter to zero; and over k consecutive closures the
number of scheduled reconnects is min k (5 - attempts already made). -/
theorem c4_reconnect_bounded :
    (maxReconnectAttempts = 5 ∧ reconnectDelayMs = 3000) ∧
    (∀ s : ClSt, s.reconnectAttempts < maxReconnectAttempts →
      handleClose maxReconnectAttempts reconnectDelayMs s =
        ({ isReady := false, isConnecting := false,
           reconnectAttempts := s.reconnectAttempts + 1 },
         [ClOut.scheduleReconnect 3000])) ∧
    (∀ s : ClSt, maxReconnectAttempts ≤ s.reconnectAttempts →
      handleClose maxReconnectAttempts reconnectDelayMs s =
        ({ isReady := false, isConnecting := false,
           reconnectAttempts := s.reconnectAttempts }, [])) ∧
    (∀ s : ClSt, s.isConnecting = true →
      handleSetupComplete s =
        ({ isReady := true, isConnecting := false, reconnectAttempts := 0 },
         [ClOut.readyEvt])) ∧
    (∀ (s : ClSt) (k : Nat),
      countReconnects (iterClose maxReconnectAttempts reconnectDelayMs s k).2 =
        min k (maxReconnectAttempts - s.reconnectAttempts)) := by
  refine ⟨⟨rfl, rfl⟩, ?_, ?_, ?_, ?_⟩
  · intro s h
    simp [handleClose, h, reconnectDelayMs]
  · intro s h
    simp [handleClose, Nat.not_lt.mpr h]
  · intro s h
    simp [handleSetupComplete, h]
  · intro s k
    induction k generalizing s with
    | zero => simp [iterClose, countReconnects]
    | succ k ih =>
      simp only [iterClose, countReconnects_append]
      by_cases h : s.reconnectAttempts < maxReconnectAttempts
      · rw [ih]
        simp only [handleClose, h, if_true]
        simp only [countReconnects, List.filter, List.length]
        have hm : maxReconnectAttempts = 5 := rfl
        omega
      · rw [ih]
        simp only [handleClose, h, if_false]
        simp only [countReconnects, List.filter, List.length]
        have hm : maxReconnectAttempts = 5 := rfl
        omega

/-- C4 counterexample: at the 5-attempt limit a closure emits no event,
so no terminal error event is emitted when the retries are exhausted. -/
theorem c4_no_terminal_error_counterexample :
    (handleClose maxReconnectAttempts reconnectDelayMs ⟨false, false, 5⟩).2 = [] ∧
    ClOut.errorEvt ∉ (handleClose maxReconnectAttempts reconnectDelayMs
      ⟨false, false, 5⟩).2 := by
  decide

/-- C4 witness: the amended behavior evaluated at attempt counts 0 and 5,
a connecting setup completion, and a 7-closure run. -/
theorem c4_reconnect_bounded_witness :
    ((0 : Nat) < maxReconnectAttempts ∧
      handleClose maxReconnectAttempts reconnectDelayMs ⟨true, false, 0⟩ =
        ({ isReady := false, isConnecting := false, reconnectAttempts := 1 },
         [ClOut.scheduleReconnect 3000])) ∧
    (maxReconnectAttempts ≤ 5 ∧
      handleClose maxReconnectAttempts reconnectDelayMs ⟨false, false, 5⟩ =
        ({ isReady := false, isConnecting := false, reconnectAttempts := 5 }, [])) ∧
    handleSetupComplete ⟨false, true, 3⟩ =
      ({ isReady := true, isConnecting := false, reconnectAttempts := 0 },
       [ClOut.readyEvt]) ∧
    countReconnects (iterClose maxReconnectAttempts reconnectDelayMs
      ⟨true, false, 0⟩ 7).2 = min 7 (maxReconnectAttempts - 0) :=
  ⟨⟨by decide, c4_reconnect_bounded.2.1 ⟨true, false, 0⟩ (by decide)⟩,
   ⟨by decide, c4_reconnect_bounded.2.2.1 ⟨false, false, 5⟩ (by decide)⟩,
   c4_reconnect_bounded.2.2.2.1 ⟨false, true, 3⟩ rfl,
   c4_reconnect_bounded.2.2.2.2 ⟨true, false, 0⟩ 7⟩

/-- C8 (amended): an empty queue ends playback and starts the cooldown; a
successful play removes exactly the head frame; a single playback failure
logs the error, aborts the entire remaining queue, clears the playing
flag and starts no cooldown, and a PulseAudio-related failure also sets a
5-second backoff during which playAudioBase64 rejects new chunks. -/
theorem c8_playback_failure_aborts_queue :
    (∀ (t : Nat) (s : PB) (r : PlayResult), s.playbackQueue = [] →
      playNextStep t s r =
        ({ s with isPlayingTTS := false }, [PbOut.cooldownStarted])) ∧
    (∀ (t : Nat) (s : PB) (item : String × Nat) (rest : List (String × Nat)),
      s.playbackQueue = item :: rest →
      playNextStep t s .ok = ({ s with playbackQueue := rest }, [PbOut.played item])) ∧
    (∀ (t : Nat) (s : PB) (item : String × Nat) (rest : List (String × Nat))
        (msg : String), s.playbackQueue = item :: rest →
      (playNextStep t s (.fail msg)).1.playbackQueue = [] ∧
      (playNextStep t s (.fail msg)).1.isPlayingTTS = false ∧
      PbOut.cooldownStarted ∉ (playNextStep t s (.fail msg)).2 ∧
      (pulseErrorMsg msg = true →
        (playNextStep t s (.fail msg)).1.playbackBackoffUntil = t + 5000)) ∧
    (∀ (t : Nat) (s : PB) (item : String × Nat), t < s.playbackBackoffUntil →
      playAudioBase64 t s item = s) := by
  refine ⟨?_, ?_, ?_, ?_⟩
  · intro t s r h
    simp [playNextStep, h]
  · intro t s item rest h
    simp [playNextStep, h]
  · intro t s item rest msg h
    simp only [playNextStep, h]
    by_cases hp : pulseErrorMsg msg = true
    · simp [hp]
    · simp [hp]
  · intro t s item h
    simp [playAudioBase64, h]

/-- C8 counterexample: one failing frame with another frame still queued
clears the whole queue, so the remaining frame is not played and no
three-failure tolerance exists; no cooldown signal is produced either. -/
theorem c8_single_failure_counterexample :
    (playNextStep 0 ⟨[("A", 24000), ("B", 24000)], true, 0⟩
      (.fail "TTS playback failed")).1.playbackQueue = [] ∧
    ([] : List (String × Nat)) ≠ [("B", 24000)] ∧
    PbOut.cooldownStarted ∉ (playNextStep 0 ⟨[("A", 24000), ("B", 24000)], true, 0⟩
      (.fail "TTS playback failed")).2 := by
  decide

/-- C8 witness: the amended playback behavior on concrete states: drain,
successful play, PulseAudio failure, and backoff rejection. -/
theorem c8_playback_failure_aborts_queue_witness :
    playNextStep 2 ⟨[], true, 0⟩ .ok =
      ({ playbackQueue := [], isPlayingTTS := false, playbackBackoffUntil := 0 },
       [PbOut.cooldownStarted]) ∧
    playNextStep 2 ⟨[("A", 24000)], true, 0⟩ .ok =
      ({ playbackQueue := [], isPlayingTTS := true, playbackBackoffUntil := 0 },
       [PbOut.played ("A", 24000)]) ∧
    ((playNextStep 2 ⟨[("A", 24000), ("B", 24000)], true, 0⟩
        (.fail "PulseAudio down")).1.playbackQueue = [] ∧
      (playNextStep 2 ⟨[("A", 24000), ("B", 24000)], true, 0⟩
        (.fail "PulseAudio down")).1.isPlayingTTS = false ∧
      PbOut.cooldownStarted ∉ (playNextStep 2 ⟨[("A", 24000), ("B", 24000)], true, 0⟩
        (.fail "PulseAudio down")).2 ∧
      (pulseErrorMsg "PulseAudio down" = true →
        (playNextStep 2 ⟨[("A", 24000), ("B", 24000)], true, 0⟩
          (.fail "PulseAudio down")).1.playbackBackoffUntil = 2 + 5000)) ∧
    playAudioBase64 3 ⟨[], false, 10⟩ ("A", 24000) = ⟨[], false, 10⟩ :=
  ⟨c8_playback_failure_aborts_queue.1 2 ⟨[], true, 0⟩ .ok rfl,
   c8_playback_failure_aborts_queue.2.1 2 ⟨[("A", 24000)], true, 0⟩
     ("A", 24000) [] rfl,
   c8_playback_failure_aborts_queue.2.2.1 2 ⟨[("A", 24000), ("B", 24000)], true, 0⟩
     ("A", 24000) [("B", 24000)] "PulseAudio down" rfl,
   c8_playback_failure_aborts_queue.2.2.2 3 ⟨[], false, 10⟩ ("A", 24000) (by decide)⟩

/-- generateResponse is a no-op while a response is awaited. -/
theorem genResponse_waiting (s : Coord) (q : String)
    (h : s.isWaitingForResponse = true) : generateResponse s q = (s, []) := by
  simp [generateResponse, h]

/-- The conversation-manager generateResponse is a no-op while a response
is awaited. -/
theorem convGenResponse_waiting (s : ConvSt) (q : String)
    (h : s.isWaitingForResponse = true) : convGenerateResponse s q = (s, []) := by
  simp [convGenerateResponse, h]

/-- askToRepeatQuestion is a no-op while a response is awaited. -/
theorem askRepeat_waiting (s : Coord) (h : s.isWaitingForResponse = true) :
    askToRepeatQuestion s = (s, []) := by
  unfold askToRepeatQuestion
  by_cases ht : s.ttsReady
  · simp [ht, h]
  · simp [ht]

/-- While a response is awaited, processing the buffered question sends
nothing, keeps the flag, and leaves the two timers untouched. -/
theorem pbq_waiting (s : Coord) (h : s.isWaitingForResponse = true) :
    (processBufferedQuestion s).2 = [] ∧
    (processBufferedQuestion s).1.isWaitingForResponse = true ∧
    (processBufferedQuestion s).1.umiResetDue = s.umiResetDue ∧
    (processBufferedQuestion s).1.noAudioDue = s.noAudioDue := by
  unfold processBufferedQuestion
  dsimp only
  by_cases hq : jsTrim s.transcriptBuffer ≠ ""
  · rw [if_pos hq]
    by_cases hd : isSameQuestionS (jsTrim s.transcriptBuffer) s.lastQuestion = true
    · rw [if_pos hd, askRepeat_waiting s h]
      exact ⟨rfl, h, rfl, rfl⟩
    · rw [if_neg hd,
         genResponse_waiting { s with lastQuestion := jsTrim s.transcriptBuffer }
           (jsTrim s.transcriptBuffer) h]
      exact ⟨rfl, h, rfl, rfl⟩
  · rw [if_neg hq]
    exact ⟨rfl, h, rfl, rfl⟩

/-- Processing the buffered question never moves the cooldown, watchdog
or reset timers. -/
theorem pbq_preserve (s : Coord) :
    (processBufferedQuestion s).1.umiResetDue = s.umiResetDue ∧
    (processBufferedQuestion s).1.noAudioDue = s.noAudioDue ∧
    (processBufferedQuestion s).1.cooldownDue = s.cooldownDue := by
  unfold processBufferedQuestion
  dsimp only
  by_cases hq : jsTrim s.transcriptBuffer ≠ ""
  · rw [if_pos hq]
    by_cases hd : isSameQuestionS (jsTrim s.transcriptBuffer) s.lastQuestion = true
    · rw [if_pos hd]
      unfold askToRepeatQuestion
      by_cases ht : s.ttsReady
      · by_cases hb : s.isPlayingTTS || s.isWaitingForResponse
        · simp [ht, hb]
        · simp [ht, hb]
      · simp [ht]
    · rw [if_neg hd]
      unfold generateResponse
      by_cases hw : s.isWaitingForResponse
      · simp [hw]
      · by_cases ht : s.ttsReady
        · simp [hw, ht]
        · by_cases hs : s.sttReady
          · simp [hw, ht, hs]
          · simp [hw, ht, hs]
  · rw [if_neg hq]
    exact ⟨rfl, rfl, rfl⟩

/-- While a response is awaited, no coordinator event emits a speak
request. -/
theorem coordStep_no_send (s : Coord) (e : CEvent)
    (h : s.isWaitingForResponse = true) : (coordStep s e).2 = [] := by
  cases e with
  | transcript t text => rfl
  | responseFire t =>
    simp only [coordStep]
    split
    · exact (pbq_waiting { s with responseDue := none } h).1
    · rfl
  | cooldownFire t =>
    simp only [coordStep]
    split <;> rfl
  | noAudioFire t =>
    simp only [coordStep]
    split
    · simp [noAudioBody, h]
    · rfl
  | umiResetFire t =>
    simp only [coordStep]
    split <;> rfl
  | audioChunk t => rfl
  | playbackDrained t => rfl

/-- Any event other than the cooldown completion keeps the waiting flag
set and the 5-second reset timer unarmed. -/
theorem coordStep_waiting_preserved (s : Coord) (e : CEvent)
    (h : s.isWaitingForResponse = true) (hu : s.umiResetDue = none)
    (he : ∀ t, e ≠ CEvent.cooldownFire t) :
    (coordStep s e).1.isWaitingForResponse = true ∧
    (coordStep s e).1.umiResetDue = none := by
  cases e with
  | transcript t text =>
    simp only [coordStep]
    unfold handleSTT
    by_cases hz : text = ""
    · simp [hz, h, hu]
    · simp [hz, h, hu]
  | responseFire t =>
    simp only [coordStep]
    split
    · have hp := pbq_waiting { s with responseDue := none } h
      exact ⟨hp.2.1, hp.2.2.1.trans hu⟩
    · exact ⟨h, hu⟩
  | cooldownFire t => exact absurd rfl (he t)
  | noAudioFire t =>
    simp only [coordStep]
    split
    · simp [noAudioBody, h, hu]
    · exact ⟨h, hu⟩
  | umiResetFire t =>
    simp only [coordStep]
    split
    · next hd => rw [hu] at hd; exact absurd hd (by simp)
    · exact ⟨h, hu⟩
  | audioChunk t => exact ⟨h, hu⟩
  | playbackDrained t =>
    simp only [coordStep]
    unfold startCooldown
    by_cases hc : s.isInCooldown <;> simp [hc, h, hu]

/-- A run started while a response is awaited emits no speak request
until a cooldown completion event occurs. -/
theorem coordRun_no_send (s : Coord) (es : List CEvent)
    (h : s.isWaitingForResponse = true) (hu : s.umiResetDue = none)
    (he : ∀ e ∈ es, ∀ t, e ≠ CEvent.cooldownFire t) :
    (coordRun s es).2 = [] := by
  induction es generalizing s with
  | nil => rfl
  | cons e es ih =>
    have he1 : ∀ t, e ≠ CEvent.cooldownFire t := he e (by simp)
    have hp := coordStep_waiting_preserved s e h hu he1
    simp only [coordRun]
    rw [coordStep_no_send s e h, ih (coordStep s e).1 hp.1 hp.2
      (fun x hx => he x (by simp [hx]))]
    rfl

/-- C2: at most one reply-generation or speak request is outstanding:
generateResponse (in both the injected coordinator and the conversation
manager) returns immediately without sending while isWaitingForResponse
is set; more generally no coordinator event emits any speak request while
the flag is set, and a whole run from such a state emits nothing until a
cooldown completion occurs. -/
theorem c2_single_outstanding_request :
    (∀ (s : Coord) (q : String), s.isWaitingForResponse = true →
      generateResponse s q = (s, [])) ∧
    (∀ (s : ConvSt) (q : String), s.isWaitingForResponse = true →
      convGenerateResponse s q = (s, [])) ∧
    (∀ (s : Coord) (e : CEvent), s.isWaitingForResponse = true →
      (coordStep s e).2 = []) ∧
    (∀ (s : Coord) (es : List CEvent), s.isWaitingForResponse = true →
      s.umiResetDue = none →
      (∀ e ∈ es, ∀ t, e ≠ CEvent.cooldownFire t) →
      (coordRun s es).2 = []) :=
  ⟨genResponse_waiting, convGenResponse_waiting, coordStep_no_send,
   coordRun_no_send⟩

/-- C2 witness: the guard evaluated on concrete busy states, a concrete
event and a concrete cooldown-free run. -/
theorem c2_single_outstanding_request_witness :
    generateResponse
      ⟨false, true, false, false, "", "", 0, none, none, none, none, true, true⟩ "q" =
      (⟨false, true, false, false, "", "", 0, none, none, none, none, true, true⟩, []) ∧
    convGenerateResponse ⟨"", true, false, none, true⟩ "q" =
      (⟨"", true, false, none, true⟩, []) ∧
    (coordStep
      ⟨false, true, false, false, "", "", 0, none, none, none, none, true, true⟩
      (.transcript 0 "x")).2 = [] ∧
    (coordRun
      ⟨false, true, false, false, "", "", 0, none, none, none, none, true, true⟩
      [CEvent.transcript 0 "x", CEvent.audioChunk 1]).2 = [] :=
  ⟨c2_single_outstanding_request.1 _ "q" rfl,
   c2_single_outstanding_request.2.1 _ "q" rfl,
   c2_single_outstanding_request.2.2.1 _ _ rfl,
   c2_single_outstanding_request.2.2.2 _ _ rfl rfl (by
     intro e he t
     rcases List.mem_cons.mp he with h | h
     · subst h; exact fun hc => CEvent.noConfusion hc
     · rw [List.mem_singleton] at h
       subst h; exact fun hc => CEvent.noConfusion hc)⟩

/-- The conversation manager skips transcriptions while TTS plays or a
response is awaited, leaving the state (and buffer) unchanged. -/
theorem convHT_skip (s : ConvSt) (t : Nat) (text : String) (ty : TrType)
    (h : s.isTTSPlaying = true ∨ s.isWaitingForResponse = true) :
    convHandleTranscription s t text ty = s := by
  unfold convHandleTranscription
  by_cases h1 : jsTrim text = ""
  · simp [h1]
  · by_cases h2 : ty = .output
    · simp [h1, h2]
    · have hb : (s.isTTSPlaying || s.isWaitingForResponse) = true := by
        rcases h with h | h <;> simp [h]
      simp [h1, h2, hb]

/-- C3 (amended): in the injected coordinator every non-empty transcript
is appended to the buffer regardless of state; at the end of a cooldown a
non-blank buffer is kept and its processing is scheduled; the scheduled
processing feeds the buffered text to the duplicate check and (for a
fresh question with the TTS socket ready) to the reply generator, then
clears the buffer.  In the Node conversation manager, by contrast, a
transcription arriving while TTS plays or a response is awaited is
skipped without being buffered. -/
theorem c3_transcript_buffering :
    (∀ (s : Coord) (t : Nat) (text : String), text ≠ "" →
      (coordStep s (.transcript t text)).1.transcriptBuffer =
        s.transcriptBuffer ++ " " ++ text) ∧
    (∀ (s : Coord) (t : Nat), s.cooldownDue = some t →
      jsTrim s.transcriptBuffer ≠ "" →
      (coordStep s (.cooldownFire t)).1.transcriptBuffer = s.transcriptBuffer ∧
      (coordStep s (.cooldownFire t)).1.responseDue = some (t + responseDelayMs)) ∧
    (∀ (s : Coord) (t : Nat), s.responseDue = some t →
      jsTrim s.transcriptBuffer ≠ "" →
      isSameQuestionS (jsTrim s.transcriptBuffer) s.lastQuestion = false →
      s.isWaitingForResponse = false → s.ttsReady = true →
      (coordStep s (.responseFire t)).2 =
        [COut.speakRequest (ttsPromptText ++ jsTrim s.transcriptBuffer)] ∧
      (coordStep s (.responseFire t)).1.transcriptBuffer = "" ∧
      (coordStep s (.responseFire t)).1.lastQuestion = jsTrim s.transcriptBuffer) ∧
    (∀ (s : ConvSt) (t : Nat) (text : String) (ty : TrType),
      s.isTTSPlaying = true ∨ s.isWaitingForResponse = true →
      convHandleTranscription s t text ty = s) := by
  refine ⟨?_, ?_, ?_, convHT_skip⟩
  · intro s t text h
    simp only [coordStep]
    unfold handleSTT
    rw [if_neg h]
    by_cases hb : !s.isPlayingTTS && !s.isWaitingForResponse <;> simp [hb]
  · intro s t hd hb
    simp only [coordStep, hd, if_pos]
    unfold cooldownBody startNoAudioCheck
    simp [hb]
  · intro s t hd hb hdup hw hr
    simp only [coordStep, hd, if_pos]
    unfold processBufferedQuestion
    dsimp only
    rw [if_pos hb]
    rw [if_neg (by simp [hdup])]
    unfold generateResponse
    simp [hw, hr]

/-- C3 counterexample: a non-empty transcript event delivered to the Node
conversation manager while TTS is playing is not appended to the
transcript buffer, so transcript text is not buffered regardless of
state. -/
theorem c3_discard_counterexample :
    ¬ ((convHandleTranscription ⟨"", false, true, none, true⟩ 0 "hello"
        .input).transcriptBuffer = "" ++ " " ++ "hello") := by
  decide

/-- C3 witness: the amended behavior evaluated on concrete states: an
append during playback, a cooldown end with buffered text, a processing
step, and the conversation-manager skip. -/
theorem c3_transcript_buffering_witness :
    (coordStep
      ⟨true, false, false, false, "a", "", 0, none, none, none, none, true, true⟩
      (.transcript 1 "hi")).1.transcriptBuffer = "a" ++ " " ++ "hi" ∧
    ((coordStep
      ⟨false, true, false, false, " hi", "", 0, none, some 7, none, none, true, true⟩
      (.cooldownFire 7)).1.transcriptBuffer = " hi" ∧
     (coordStep
      ⟨false, true, false, false, " hi", "", 0, none, some 7, none, none, true, true⟩
      (.cooldownFire 7)).1.responseDue = some (7 + responseDelayMs)) ∧
    ((coordStep
      ⟨false, false, false, false, " hi", "", 0, some 3, none, none, none, true, true⟩
      (.responseFire 3)).2 = [COut.speakRequest (ttsPromptText ++ "hi")] ∧
     (coordStep
      ⟨false, false, false, false, " hi", "", 0, some 3, none, none, none, true, true⟩
      (.responseFire 3)).1.transcriptBuffer = "" ∧
     (coordStep
      ⟨false, false, false, false, " hi", "", 0, some 3, none, none, none, true, true⟩
      (.responseFire 3)).1.lastQuestion = "hi") ∧
    convHandleTranscription ⟨"", false, true, none, true⟩ 0 "hello" .input =
      ⟨"", false, true, none, true⟩ :=
  ⟨c3_transcript_buffering.1 _ 1 "hi" (by decide),
   c3_transcript_buffering.2.1 _ 7 rfl (by decide),
   (by
     have h := c3_transcript_buffering.2.2.1
       ⟨false, false, false, false, " hi", "", 0, some 3, none, none, none, true, true⟩
       3 rfl (by decide) (by decide) rfl rfl
     have hq : jsTrim " hi" = "hi" := by decide
     rw [hq] at h
     exact h),
   c3_transcript_buffering.2.2.2 _ 0 "hello" .input (Or.inl rfl)⟩

/-- Length of the TTS response prompt wrapper. -/
theorem ttsPromptText_length : ttsPromptText.length = 107 := by decide

/-- Length of the STT-fallback response prompt wrapper. -/
theorem sttPromptText_length : sttPromptText.length = 97 := by decide

/-- Length of the no-audio repeat utterance. -/
theorem umiRepeatMsg_length : umiRepeatMsg.length = 56 := by decide

/-- Length of the duplicate-question repeat utterance. -/
theorem repeatQuestionMsg_length : repeatQuestionMsg.length = 35 := by decide

/-- A generated reply request is never the no-audio repeat utterance. -/
theorem tts_ne_umi (q : String) : ttsPromptText ++ q ≠ umiRepeatMsg := by
  intro hcontra
  have hl := congrArg String.length hcontra
  rw [String.length_append, ttsPromptText_length, umiRepeatMsg_length] at hl
  omega

/-- The STT-fallback reply request is never the no-audio repeat utterance. -/
theorem stt_ne_umi (q : String) : sttPromptText ++ q ≠ umiRepeatMsg := by
  intro hcontra
  have hl := congrArg String.length hcontra
  rw [String.length_append, sttPromptText_length, umiRepeatMsg_length] at hl
  omega

/-- The two fixed repeat utterances differ. -/
theorem repeatq_ne_umi : repeatQuestionMsg ≠ umiRepeatMsg := by decide

/-- A generated reply request is never the duplicate-repeat utterance. -/
theorem tts_ne_repeatq (q : String) : ttsPromptText ++ q ≠ repeatQuestionMsg := by
  intro hcontra
  have hl := congrArg String.length hcontra
  rw [String.length_append, ttsPromptText_length, repeatQuestionMsg_length] at hl
  omega

/-- The STT-fallback reply request is never the duplicate-repeat
utterance. -/
theorem stt_ne_repeatq (q : String) : sttPromptText ++ q ≠ repeatQuestionMsg := by
  intro hcontra
  have hl := congrArg String.length hcontra
  rw [String.length_append, sttPromptText_length, repeatQuestionMsg_length] at hl
  omega

/-- The possible outputs of processing the buffered question. -/
theorem pbq_outs (s : Coord) :
    (processBufferedQuestion s).2 = [] ∨
    (∃ q, (processBufferedQuestion s).2 = [COut.speakRequest (ttsPromptText ++ q)]) ∨
    (∃ q, (processBufferedQuestion s).2 = [COut.speakRequest (sttPromptText ++ q)]) ∨
    (processBufferedQuestion s).2 = [COut.speakRequest repeatQuestionMsg] := by
  unfold processBufferedQuestion
  dsimp only
  by_cases hq : jsTrim s.transcriptBuffer ≠ ""
  · rw [if_pos hq]
    by_cases hd : isSameQuestionS (jsTrim s.transcriptBuffer) s.lastQuestion = true
    · rw [if_pos hd]
      unfold askToRepeatQuestion
      by_cases ht : s.ttsReady
      · by_cases hb : s.isPlayingTTS || s.isWaitingForResponse
        · simp [ht, hb]
        · simp [ht, hb]
      · simp [ht]
    · rw [if_neg hd]
      unfold generateResponse
      by_cases hw : s.isWaitingForResponse
      · simp [hw]
      · by_cases ht : s.ttsReady
        · right; left
          exact ⟨jsTrim s.transcriptBuffer, by simp [hw, ht]⟩
        · by_cases hs : s.sttReady
          · right; right; left
            exact ⟨jsTrim s.transcriptBuffer, by simp [hw, ht, hs]⟩
          · simp [hw, ht, hs]
  · rw [if_neg hq]
    simp

/-- Processing the buffered question never speaks the no-audio repeat
utterance. -/
theorem pbq_no_umi (s : Coord) :
    COut.speakRequest umiRepeatMsg ∉ (processBufferedQuestion s).2 := by
  rcases pbq_outs s with h | ⟨q, h⟩ | ⟨q, h⟩ | h
  · rw [h]; simp
  · rw [h]
    intro hmem
    simp only [List.mem_singleton, COut.speakRequest.injEq] at hmem
    exact tts_ne_umi q hmem.symm
  · rw [h]
    intro hmem
    simp only [List.mem_singleton, COut.speakRequest.injEq] at hmem
    exact stt_ne_umi q hmem.symm
  · rw [h]
    intro hmem
    simp only [List.mem_singleton, COut.speakRequest.injEq] at hmem
    exact repeatq_ne_umi hmem.symm

/-- With the watchdog unarmed, any event other than a cooldown completion
keeps it unarmed and cannot speak the no-audio repeat utterance. -/
theorem coordStep_noAudio_none (s : Coord) (e : CEvent)
    (h : s.noAudioDue = none) (he : ∀ t, e ≠ CEvent.cooldownFire t) :
    (coordStep s e).1.noAudioDue = none ∧
    COut.speakRequest umiRepeatMsg ∉ (coordStep s e).2 := by
  cases e with
  | transcript t text =>
    simp only [coordStep]
    unfold handleSTT
    by_cases hz : text = ""
    · simp [hz, h]
    · by_cases hb : !s.isPlayingTTS && !s.isWaitingForResponse <;> simp [hz, hb]
  | responseFire t =>
    simp only [coordStep]
    split
    · exact ⟨((pbq_preserve _).2.1).trans h, pbq_no_umi _⟩
    · exact ⟨h, by simp⟩
  | cooldownFire t => exact absurd rfl (he t)
  | noAudioFire t =>
    simp only [coordStep]
    split
    · next hd => rw [h] at hd; exact absurd hd (by simp)
    · exact ⟨h, by simp⟩
  | umiResetFire t =>
    simp only [coordStep]
    split
    · exact ⟨h, by simp⟩
    · exact ⟨h, by simp⟩
  | audioChunk t => exact ⟨h, by simp [coordStep]⟩
  | playbackDrained t =>
    simp only [coordStep]
    unfold startCooldown
    by_cases hc : s.isInCooldown <;> simp [hc, h]

/-- A run started with the watchdog unarmed never speaks the no-audio
repeat utterance as long as no cooldown completion occurs. -/
theorem coordRun_no_umi (s : Coord) (es : List CEvent)
    (h : s.noAudioDue = none)
    (he : ∀ e ∈ es, ∀ t, e ≠ CEvent.cooldownFire t) :
    COut.speakRequest umiRepeatMsg ∉ (coordRun s es).2 := by
  induction es generalizing s with
  | nil => simp [coordRun]
  | cons e es ih =>
    have he1 : ∀ t, e ≠ CEvent.cooldownFire t := he e (by simp)
    have hp := coordStep_noAudio_none s e h he1
    simp only [coordRun, List.mem_append]
    push_neg
    exact ⟨hp.2, ih (coordStep s e).1 hp.1 (fun x hx => he x (by simp [hx]))⟩

/-- Firing the armed watchdog in quiet Listening speaks the repeat prompt
exactly once, sets hasAskedToRepeat, spends the timer and schedules the
5-second reset. -/
theorem noAudioFire_speaks (s : Coord) (t : Nat)
    (hd : s.noAudioDue = some t)
    (ht : s.lastTranscriptionTime + noAudioCheckMs ≤ t)
    (hp : s.isPlayingTTS = false) (hw : s.isWaitingForResponse = false)
    (ha : s.hasAskedToRepeat = false) (hr : s.ttsReady = true) :
    coordStep s (.noAudioFire t) =
      ({ s with hasAskedToRepeat := true, isWaitingForResponse := true,
                noAudioDue := none, umiResetDue := some (t + 5000) },
       [COut.speakRequest umiRepeatMsg]) := by
  simp only [coordStep, hd, if_pos]
  unfold noAudioBody askUmiToRepeat
  have hge : noAudioCheckMs ≤ t - s.lastTranscriptionTime := by omega
  simp [hge, hp, hw, ha, hr]

/-- A completed cooldown re-arms the no-audio watchdog for 15 seconds. -/
theorem cooldownFire_rearms (s : Coord) (t : Nat) (hd : s.cooldownDue = some t) :
    (coordStep s (.cooldownFire t)).1.noAudioDue = some (t + noAudioCheckMs) := by
  simp only [coordStep, hd, if_pos]
  unfold cooldownBody startNoAudioCheck
  by_cases hb : jsTrim s.transcriptBuffer ≠ "" <;> simp [hb]

/-- C9: when the armed watchdog fires after 15 silent seconds of
Listening, exactly one repeat-prompt utterance is spoken and the watchdog
disarms itself (hasAskedToRepeat set, timer spent); once unarmed it
cannot fire again in any run that contains no cooldown completion; and a
completed cooldown is what re-arms it. -/
theorem c9_watchdog_fires_once :
    (∀ (s : Coord) (t : Nat), s.noAudioDue = some t →
      s.lastTranscriptionTime + noAudioCheckMs ≤ t →
      s.isPlayingTTS = false → s.isWaitingForResponse = false →
      s.hasAskedToRepeat = false → s.ttsReady = true →
      coordStep s (.noAudioFire t) =
        ({ s with hasAskedToRepeat := true, isWaitingForResponse := true,
                  noAudioDue := none, umiResetDue := some (t + 5000) },
         [COut.speakRequest umiRepeatMsg])) ∧
    (∀ (s : Coord) (es : List CEvent), s.noAudioDue = none →
      (∀ e ∈ es, ∀ t, e ≠ CEvent.cooldownFire t) →
      COut.speakRequest umiRepeatMsg ∉ (coordRun s es).2) ∧
    (∀ (s : Coord) (t : Nat), s.cooldownDue = some t →
      (coordStep s (.cooldownFire t)).1.noAudioDue = some (t + noAudioCheckMs)) :=
  ⟨noAudioFire_speaks, coordRun_no_umi, cooldownFire_rearms⟩

/-- C9 witness: the watchdog fired at a concrete quiet Listening state, a
concrete cooldown-free run after it, and a concrete cooldown completion. -/
theorem c9_watchdog_fires_once_witness :
    coordStep
      ⟨false, false, false, false, "", "", 0, none, none, some 15000, none, true, true⟩
      (.noAudioFire 15000) =
      ({ isPlayingTTS := false, isWaitingForResponse := true,
         isInCooldown := false, hasAskedToRepeat := true,
         transcriptBuffer := "", lastQuestion := "", lastTranscriptionTime := 0,
         responseDue := none, cooldownDue := none, noAudioDue := none,
         umiResetDue := some 20000, ttsReady := true, sttReady := true },
       [COut.speakRequest umiRepeatMsg]) ∧
    COut.speakRequest umiRepeatMsg ∉ (coordRun
      ⟨false, false, false, false, "", "", 0, none, none, none, none, true, true⟩
      [CEvent.transcript 5 "hi", CEvent.noAudioFire 9]).2 ∧
    (coordStep
      ⟨false, true, true, true, "", "", 0, none, some 40000, none, none, true, true⟩
      (.cooldownFire 40000)).1.noAudioDue = some (40000 + noAudioCheckMs) :=
  ⟨c9_watchdog_fires_once.1 _ 15000 rfl (by decide) rfl rfl rfl rfl,
   c9_watchdog_fires_once.2.1 _ _ rfl (by
     intro e he t
     rcases List.mem_cons.mp he with h | h
     · subst h; exact fun hc => CEvent.noConfusion hc
     · rw [List.mem_singleton] at h
       subst h; exact fun hc => CEvent.noConfusion hc),
   c9_watchdog_fires_once.2.2 _ 40000 rfl⟩

/-- The duplicate check against an empty stored question is always false. -/
theorem sameQ_empty (q : String) : isSameQuestionS q "" = false := by
  have he : ("" : String).toList = [] := rfl
  unfold isSameQuestionS
  rw [he]
  unfold isSameQuestionL
  simp

/-- Processing the buffered question leaves the stored last question
unchanged or replaces it with the question just processed. -/
theorem pbq_lastQ (s : Coord) :
    (processBufferedQuestion s).1.lastQuestion = s.lastQuestion ∨
    (processBufferedQuestion s).1.lastQuestion = jsTrim s.transcriptBuffer := by
  unfold processBufferedQuestion
  dsimp only
  by_cases hq : jsTrim s.transcriptBuffer ≠ ""
  · rw [if_pos hq]
    by_cases hdup : isSameQuestionS (jsTrim s.transcriptBuffer) s.lastQuestion = true
    · rw [if_pos hdup]
      left
      unfold askToRepeatQuestion
      by_cases ht : s.ttsReady
      · by_cases hb : s.isPlayingTTS || s.isWaitingForResponse <;> simp [ht, hb]
      · simp [ht]
    · rw [if_neg hdup]
      right
      unfold generateResponse
      by_cases hw : s.isWaitingForResponse
      · simp [hw]
      · by_cases ht : s.ttsReady
        · simp [hw, ht]
        · by_cases hs : s.sttReady <;> simp [hw, ht, hs]
  · rw [if_neg hq]
    left; rfl

/-- From an empty stored last question, a step leaves it empty or sets it
to the question just processed. -/
theorem coordStep_lastQ (s : Coord) (e : CEvent) (h : s.lastQuestion = "") :
    (coordStep s e).1.lastQuestion = "" ∨
    (coordStep s e).1.lastQuestion = jsTrim s.transcriptBuffer := by
  cases e with
  | transcript t text =>
    left
    simp only [coordStep]
    unfold handleSTT
    by_cases hz : text = ""
    · simp [hz, h]
    · by_cases hb : !s.isPlayingTTS && !s.isWaitingForResponse <;> simp [hz, hb, h]
  | responseFire t =>
    simp only [coordStep]
    split
    · rcases pbq_lastQ { s with responseDue := none } with hp | hp
      · left; rw [hp]; exact h
      · right; exact hp
    · left; exact h
  | cooldownFire t =>
    simp only [coordStep]
    split
    · left
      unfold cooldownBody startNoAudioCheck
      by_cases hb : jsTrim s.transcriptBuffer ≠ "" <;> simp [hb]
    · left; exact h
  | noAudioFire t =>
    left
    simp only [coordStep]
    split
    · simp only [noAudioBody]
      split
      · unfold askUmiToRepeat
        by_cases ht : !s.ttsReady
        · simp [ht, h]
        · by_cases hb : s.isPlayingTTS || s.isWaitingForResponse
          · simp [ht, hb, h]
          · by_cases ha : s.hasAskedToRepeat <;> simp [ht, hb, ha, h]
      · simp [h]
    · exact h
  | umiResetFire t =>
    left
    simp only [coordStep]
    split
    · simp [h]
    · exact h
  | audioChunk t => left; exact h
  | playbackDrained t =>
    left
    simp only [coordStep]
    unfold startCooldown
    by_cases hc : s.isInCooldown <;> simp [hc, h]

/-- With an empty stored last question, processing the buffer never takes
the duplicate branch, so the duplicate-repeat utterance is never spoken. -/
theorem pbq_no_repeatq_of_emptyLastQ (s : Coord) (h : s.lastQuestion = "") :
    COut.speakRequest repeatQuestionMsg ∉ (processBufferedQuestion s).2 := by
  unfold processBufferedQuestion
  dsimp only
  by_cases hq : jsTrim s.transcriptBuffer ≠ ""
  · rw [if_pos hq]
    rw [if_neg (by rw [h, sameQ_empty]; simp)]
    unfold generateResponse
    by_cases hw : s.isWaitingForResponse
    · simp [hw]
    · by_cases ht : s.ttsReady
      · intro hmem
        simp only [hw, ht, if_false, if_true, Bool.false_eq_true,
          List.mem_singleton, COut.speakRequest.injEq] at hmem
        exact tts_ne_repeatq _ hmem.symm
      · by_cases hs : s.sttReady
        · intro hmem
          simp only [hw, ht, hs, if_false, if_true, Bool.false_eq_true,
            List.mem_singleton, COut.speakRequest.injEq] at hmem
          exact stt_ne_repeatq _ hmem.symm
        · simp [hw, ht, hs]
  · rw [if_neg hq]
    simp

/-- C10: a completed cooldown resets the stored last question to the
empty string; the duplicate check against an empty last question is
always false; from an empty last question a step either keeps it empty or
installs the question just processed; consequently a question processed
right after a full cooldown is never classified as a duplicate of the
previous turn, and the duplicate-repeat utterance cannot be spoken. -/
theorem c10_cooldown_clears_lastQuestion :
    (∀ (s : Coord) (t : Nat), s.cooldownDue = some t →
      (coordStep s (.cooldownFire t)).1.lastQuestion = "") ∧
    (∀ q : String, isSameQuestionS q "" = false) ∧
    (∀ (s : Coord) (e : CEvent), s.lastQuestion = "" →
      (coordStep s e).1.lastQuestion = "" ∨
      (coordStep s e).1.lastQuestion = jsTrim s.transcriptBuffer) ∧
    (∀ (s : Coord) (t : Nat), s.lastQuestion = "" →
      COut.speakRequest repeatQuestionMsg ∉ (coordStep s (.responseFire t)).2) := by
  refine ⟨?_, sameQ_empty, coordStep_lastQ, ?_⟩
  · intro s t hd
    simp only [coordStep, hd, if_pos]
    unfold cooldownBody startNoAudioCheck
    by_cases hb : jsTrim s.transcriptBuffer ≠ "" <;> simp [hb]
  · intro s t h
    simp only [coordStep]
    split
    · exact pbq_no_repeatq_of_emptyLastQ { s with responseDue := none } h
    · simp

/-- C10 witness: the reset, the empty-question check, the preservation
step and the no-duplicate processing evaluated on concrete states. -/
theorem c10_cooldown_clears_lastQuestion_witness :
    (coordStep
      ⟨false, true, true, false, "", "same question", 0, none, some 9, none, none, true, true⟩
      (.cooldownFire 9)).1.lastQuestion = "" ∧
    isSameQuestionS "what is your greatest strength" "" = false ∧
    ((coordStep
      ⟨false, false, false, false, "", "", 0, none, none, none, none, true, true⟩
      (.audioChunk 1)).1.lastQuestion = "" ∨
     (coordStep
      ⟨false, false, false, false, "", "", 0, none, none, none, none, true, true⟩
      (.audioChunk 1)).1.lastQuestion = jsTrim "") ∧
    COut.speakRequest repeatQuestionMsg ∉ (coordStep
      ⟨false, false, false, false, " what is your greatest strength", "", 0,
        some 4, none, none, none, true, true⟩
      (.responseFire 4)).2 :=
  ⟨c10_cooldown_clears_lastQuestion.1 _ 9 rfl,
   c10_cooldown_clears_lastQuestion.2.1 "what is your greatest strength",
   c10_cooldown_clears_lastQuestion.2.2.1 _ (.audioChunk 1) rfl,
   c10_cooldown_clears_lastQuestion.2.2.2 _ 4 rfl⟩
